import Mathlib

/-!
Verification development for the ao3_wrapped reading-history scraper
(src/main.rs). The file shallowly embeds the scraping core: the
per-entry extraction and aggregation function `parse_hist_page`
(src/main.rs lines 463-649), the page-level pagination loop of `main`
(lines 62-91), and the inner fetch/retry loop (lines 71-78).

Strings are processed through their character lists with structural
recursion only, so that every definition evaluates inside the kernel.
Rust string primitives are re-implemented one-to-one:
`str::contains`, `str::splitn`-style `split`, `str::trim`,
`str::strip_prefix`, `str::split_whitespace`, `str::replace`, and
checked integer parsing with the source's concrete integer widths.
-/

/-- Unicode-whitespace test used by Rust `trim` / `split_whitespace`
(restricted to the ASCII whitespace that can occur in the scraped text). -/
def wsp (c : Char) : Bool := c.isWhitespace

/-- Rust `str::trim` on a character list. -/
def trimL (s : List Char) : List Char :=
  ((s.dropWhile wsp).reverse.dropWhile wsp).reverse

/-- Rust `str::strip_prefix`: `some` of the remainder when `pre` is a
prefix of `s`, otherwise `none`. -/
def stripPre (pre s : List Char) : Option (List Char) :=
  if pre.isPrefixOf s then some (s.drop pre.length) else none

/-- Helper for `splitOnL`: scans `s` left to right; `skip` counts
separator characters still to be consumed after a match; `acc` holds the
current token reversed. Leftmost, non-overlapping matches, as Rust
`str::split` with a string pattern. -/
def splitGo (sep : List Char) : List Char → Nat → List Char → List (List Char)
  | [], _, acc => [acc.reverse]
  | _ :: rest, skip + 1, acc => splitGo sep rest skip acc
  | c :: rest, 0, acc =>
    if sep.isPrefixOf (c :: rest) then
      acc.reverse :: splitGo sep rest (sep.length - 1) []
    else
      splitGo sep rest 0 (c :: acc)

/-- Rust `str::split` with a non-empty string pattern, collected to a
list (the source only ever splits on `", "`, `"Visited "` and `"\n"`). -/
def splitOnL (sep s : List Char) : List (List Char) :=
  if sep = [] then [s] else splitGo sep s 0 []

/-- Rust `str::contains` with a string pattern. -/
def containsSub (s pat : List Char) : Bool :=
  match s with
  | [] => pat.isEmpty
  | _ :: rest => pat.isPrefixOf s || containsSub rest pat

/-- `str::contains` lifted to `String`. -/
def containsStr (s pat : String) : Bool := containsSub s.toList pat.toList

/-- Rust `str::split_whitespace().next()`: the first maximal run of
non-whitespace characters, `none` when the string is empty or blank. -/
def firstWsTok (s : List Char) : Option (List Char) :=
  let t := (s.dropWhile wsp).takeWhile (fun c => !wsp c)
  if t = [] then none else some t

/-- Rust `str::replace(",", "")`. -/
def stripCommas (s : String) : String :=
  String.mk (s.toList.filter (fun c => c ≠ ','))

/-- Rust `str::to_lowercase` (ASCII range, as exercised by the scraped text). -/
def toLowerStr (s : String) : String := String.mk (s.toList.map Char.toLower)

/-- Decimal value of a digit list (little-endian fold, as `from_str_radix`). -/
def digitsVal (cs : List Char) : Nat :=
  cs.foldl (fun a c => a * 10 + (c.toNat - 48)) 0

/-- Non-empty all-digit test. -/
def isDigits (cs : List Char) : Bool := cs ≠ [] && cs.all Char.isDigit

/-- Rust `str::parse::<u64>` (word counts, line 600 via the `u64` running
total at line 602): optional `+` sign, digits, range-checked. -/
def parseU64 (s : String) : Option Nat :=
  match s.toList with
  | '+' :: r => if isDigits r && digitsVal r < 2 ^ 64 then some (digitsVal r) else none
  | r => if isDigits r && digitsVal r < 2 ^ 64 then some (digitsVal r) else none

/-- Rust `str::parse::<i32>` (kudos, hits, visitation counts — the
unannotated integer fallback type): optional sign, digits, range-checked. -/
def parseI32 (s : String) : Option Int :=
  match s.toList with
  | '-' :: r => if isDigits r && digitsVal r ≤ 2 ^ 31 then some (-(digitsVal r : Int)) else none
  | '+' :: r => if isDigits r && digitsVal r < 2 ^ 31 then some ((digitsVal r : Int)) else none
  | r => if isDigits r && digitsVal r < 2 ^ 31 then some ((digitsVal r : Int)) else none

/-- Rust `Vec::join(",")` (row flattening, lines 630-639). -/
def joinComma (l : List String) : String := String.intercalate "," l

/-- A frequency table: `HashMap<String, u32>` modelled as an association
list with unique keys; `bump` is `*map.entry(k).or_insert(0) += 1`. -/
abbrev Freq : Type := List (String × Nat)

/-- `*map.entry(k).or_insert(0) += 1` on the association-list model. -/
def bump (m : Freq) (k : String) : Freq :=
  match m with
  | [] => [(k, 1)]
  | (k', v) :: rest => if k' = k then (k', v + 1) :: rest else (k', v) :: bump rest k

/-- Bump every key of `ks` in order (one `+= 1` per occurrence). -/
def bumpAll (m : Freq) (ks : List String) : Freq := ks.foldl bump m

/-- Lookup with default 0 (`map.get(k).copied().unwrap_or(0)`). -/
def lookupD (m : Freq) (k : String) : Nat :=
  match m with
  | [] => 0
  | (k', v) :: rest => if k' = k then v else lookupD rest k

/-- Sum of all stored counts of a frequency table. -/
def sumVals (m : Freq) : Nat := (m.map (fun p => p.2)).sum

/-- Key-membership test on a frequency table. -/
def freqHasKey (m : Freq) (k : String) : Bool := m.any (fun p => p.1 = k)

/-- The `Stats` struct (src/main.rs lines 449-461). -/
structure Stats where
  user_authors : Freq
  user_fandoms : Freq
  user_ship_type : Freq
  user_rating : Freq
  user_status : Freq
  user_ships : Freq
  user_characters : Freq
  user_tags : Freq
  user_word_count : Nat
  title_lower_count : Nat

/-- `Stats::default()`: every table empty, every count 0 (line 63). -/
def emptyStats : Stats := ⟨[], [], [], [], [], [], [], [], 0, 0⟩

/-- The selector results for the header block `div.header.module` of one
entry: first `h4.heading a` text, the `a[rel='author']` texts in document
order, first `p` text, the fandom link texts, and the required-tag
`ul li a span.text` texts (lines 468-473, 505-547). -/
structure Header where
  titleText : Option String
  authorTexts : List String
  updatedText : Option String
  fandomTexts : List String
  reqTags : List String
  deriving DecidableEq

/-- The selector results for an entry's `dl.stats` block: texts of the
first `dd.words`, `dd.kudos a` and `dd.hits` elements (lines 477-480,
593-614). -/
structure StatsBlock where
  wordsText : Option String
  kudosText : Option String
  hitsText : Option String
  deriving DecidableEq

/-- One history-page entry (an `li` of the reading work list): the text
of its first `div.user.module.group h4` element, its header block, and
its relationship / character / freeform tag texts and stats block
(lines 464-480, 484-646). -/
structure Entry where
  userModuleText : Option String
  headerPart : Option Header
  shipTexts : List String
  charTexts : List String
  freeformTexts : List String
  statsPart : Option StatsBlock
  deriving DecidableEq

/-- One appended row of the works `DataFrame`, with its typed field
values before the `join(",")` flattening (lines 629-645). -/
structure Row where
  title : String
  authors : List String
  last_updated : String
  fandoms : List String
  characters : List String
  ship_types : List String
  rating : String
  work_status : String
  ships : List String
  additional_tags : List String
  word_count : Nat
  kudos : Int
  hits : Int
  user_last_visited : String
  user_visitations : Int
  deriving DecidableEq

/-- The named columns of one appended row, exactly as the `df!` macro
invocation writes them (src/main.rs lines 629-645), in order, with
list-valued fields joined by commas and numbers rendered. -/
def rowNamed (r : Row) : List (String × String) :=
  [("title", r.title),
   ("authors", joinComma r.authors),
   ("last_updated", r.last_updated),
   ("fandoms", joinComma r.fandoms),
   ("characters", joinComma r.characters),
   ("ship_types", joinComma r.ship_types),
   ("rating", r.rating),
   ("work_stats", r.work_status),
   ("ships", joinComma r.ships),
   ("additional_tags", joinComma r.additional_tags),
   ("word_count", toString r.word_count),
   ("kudos", toString r.kudos),
   ("hits", toString r.hits),
   ("user_last_visited", r.user_last_visited),
   ("user_visitations", toString r.user_visitations)]

/-- The column list as §6 of the specification states it (its words, not
the source): ... rating, `work_status`, ships, ... -/
def specClaimedColumns : List String :=
  ["title", "authors", "last_updated", "fandoms", "characters", "ship_types",
   "rating", "work_status", "ships", "additional_tags", "word_count", "kudos",
   "hits", "user_last_visited", "user_visitations"]

/-- Lines 489-497: trim the visited-module text, strip the
`"Last visited:"` label (empty string when absent), keep the first line,
trim again. -/
def extractLastVisited (txt : String) : String :=
  let t := trimL txt.toList
  let stripped := (stripPre ("Last visited:".toList) t).getD []
  let firstLine := (splitOnL ("\n".toList) stripped).headD []
  String.mk (trimL firstLine)

/-- Lines 617-621: `split("Visited ").nth(1)`, then the first
whitespace-separated token, with `"once"` as the fallback. -/
def visitCountTok (t : String) : String :=
  String.mk
    (((((splitOnL ("Visited ".toList) t.toList).drop 1).head?).bind firstWsTok).getD
      ("once".toList))

/-- Lines 617-627: the visitation count parsed from the raw visited-module
text; `"once"` maps to 1, otherwise the token is parsed with default 1. -/
def parseVisitations (t : String) : Int :=
  let tok := visitCountTok t
  if tok = "once" then 1 else (parseI32 tok).getD 1

/-- Did the entry set `found_in_year` (lines 484-503): it has a visited
module and the extracted visited date contains the target year. -/
def entryMatched (year : String) (e : Entry) : Bool :=
  match e.userModuleText with
  | none => false
  | some t => containsStr (extractLastVisited t) year

/-- The body of the `for work in html.select(&work_list_sel)` loop
(src/main.rs lines 484-646) for one entry: threads the `Stats` struct and
the accumulated rows, and returns this entry's contribution to
`found_in_year`. Each `continue` of the source is an early return. -/
def processEntry (year : String) (e : Entry) (s : Stats) (rows : List Row) :
    Stats × List Row × Bool :=
  match e.userModuleText with
  | none => (s, rows, false)
  | some lastVisitedText =>
    let lastVisited := extractLastVisited lastVisitedText
    if containsStr lastVisited year = false then (s, rows, false)
    else
      match e.headerPart with
      | none => (s, rows, true)
      | some h =>
        match h.titleText with
        | none => (s, rows, true)
        | some title =>
          let s1 := if title = toLowerStr title then
              { s with title_lower_count := s.title_lower_count + 1 } else s
          let authors := h.authorTexts.filter (fun a => a ≠ "orphan_account")
          let s2 := { s1 with user_authors := bumpAll s1.user_authors authors }
          let updated := h.updatedText.getD ""
          let s3 := { s2 with user_fandoms := bumpAll s2.user_fandoms h.fandomTexts }
          if h.reqTags.length < 4 then (s3, rows, true)
          else
            let rating := h.reqTags.getD 0 ""
            let s4 := { s3 with user_rating := bump s3.user_rating rating }
            let ship_types :=
              (splitOnL (", ".toList) (h.reqTags.getD 2 "").toList).map String.mk
            let s5 := { s4 with user_ship_type := bumpAll s4.user_ship_type ship_types }
            let work_status := h.reqTags.getD 3 ""
            let s6 := { s5 with user_status := bump s5.user_status work_status }
            let s7 := { s6 with user_ships := bumpAll s6.user_ships e.shipTexts }
            let s8 := { s7 with user_characters := bumpAll s7.user_characters e.charTexts }
            let s9 := { s8 with user_tags := bumpAll s8.user_tags e.freeformTexts }
            match e.statsPart with
            | none => (s9, rows, true)
            | some sb =>
              let word_count :=
                ((sb.wordsText.bind (fun t => parseU64 (stripCommas t))).getD 0)
              let s10 := { s9 with user_word_count := s9.user_word_count + word_count }
              let kudos := ((sb.kudosText.bind (fun t => parseI32 (stripCommas t))).getD 0)
              let hits := ((sb.hitsText.bind (fun t => parseI32 (stripCommas t))).getD 0)
              let user_visitations := parseVisitations lastVisitedText
              (s10,
               rows ++ [{ title := title, authors := authors, last_updated := updated,
                          fandoms := h.fandomTexts, characters := e.charTexts,
                          ship_types := ship_types, rating := rating,
                          work_status := work_status, ships := e.shipTexts,
                          additional_tags := e.freeformTexts, word_count := word_count,
                          kudos := kudos, hits := hits, user_last_visited := lastVisited,
                          user_visitations := user_visitations }],
               true)

/-- One page: the `for work in ...` loop over every matched entry, OR-ing
the `found_in_year` contributions (lines 482-648). -/
def processPage (year : String) (page : List Entry) (s : Stats) (rows : List Row) :
    Stats × List Row × Bool :=
  match page with
  | [] => (s, rows, false)
  | e :: rest =>
    let out := processEntry year e s rows
    let outR := processPage year rest out.1 out.2.1
    (outR.1, outR.2.1, out.2.2 || outR.2.2)

/-- A page contains a year-matching entry. -/
def pageMatched (year : String) (page : List Entry) : Bool :=
  page.any (entryMatched year)

/-- The pagination loop of `main` (src/main.rs lines 62-91): pages are
parsed in order until the first page whose parse reports no
year-matching entry; the third component counts the pages fetched. The
successful body text of each fetch is abstracted as the page's entry
list (the fetch/retry loop itself is modelled by `fetchLoop`). -/
def runPages (year : String) (pages : List (List Entry)) (s : Stats) (rows : List Row) :
    Stats × List Row × Nat :=
  match pages with
  | [] => (s, rows, 0)
  | p :: rest =>
    let out := processPage year p s rows
    if out.2.2 then
      let outR := runPages year rest out.1 out.2.1
      (outR.1, outR.2.1, outR.2.2 + 1)
    else (out.1, out.2.1, 1)

/-- The pages whose entries are actually processed by `runPages`: every
page up to and including the first page with no year-matching entry. -/
def fetchedEntries (year : String) : List (List Entry) → List Entry
  | [] => []
  | p :: rest => if pageMatched year p then p ++ fetchedEntries year rest else p

/-- How many ship-type tokens an entry contributes to the ship-type
frequency table: the comma-split of required-tag slot 2 when the entry
reaches line 556 (visited module present, year matched, header and title
present, at least four required tags), and 0 otherwise. -/
def shipTokens (year : String) (e : Entry) : Nat :=
  match e.userModuleText with
  | none => 0
  | some t =>
    if containsStr (extractLastVisited t) year = false then 0
    else
      match e.headerPart with
      | none => 0
      | some h =>
        match h.titleText with
        | none => 0
        | some _ =>
          if h.reqTags.length < 4 then 0
          else (splitOnL (", ".toList) (h.reqTags.getD 2 "").toList).length

/-- One attempt of the inner fetch loop (src/main.rs lines 71-78):
the `send()` call can fail (a transport error, propagated by `?` at line
72), the response status can be non-success (`error_for_status()` is
`Err`, caught and retried), reading the body can fail (propagated by `?`
at line 73), or the attempt succeeds with a body. -/
inductive Attempt where
  | sendErr : Attempt
  | httpErr : Attempt
  | textErr : Attempt
  | success : String → Attempt
  deriving DecidableEq

/-- Outcome of running the inner fetch loop against a finite prefix of
the attempt sequence. -/
inductive FetchResult where
  | aborted : FetchResult
  | exhausted : FetchResult
  | fetched : String → FetchResult
  deriving DecidableEq

/-- The inner fetch loop (src/main.rs lines 71-78) over a list of attempt
outcomes: a transport error on `send()` or on `text()` is propagated by
`?` and aborts the whole run; a non-success status is logged and the
same request is retried; a success breaks out with the body. `exhausted`
means the given attempts ran out with the loop still retrying. -/
def fetchLoop : List Attempt → FetchResult
  | [] => FetchResult.exhausted
  | Attempt.sendErr :: _ => FetchResult.aborted
  | Attempt.textErr :: _ => FetchResult.aborted
  | Attempt.httpErr :: rest => fetchLoop rest
  | Attempt.success b :: _ => FetchResult.fetched b

/-! ### Concrete sample inputs used by counterexamples and witnesses -/

/-- Header of a fully well-formed entry. -/
def headerOk : Header :=
  { titleText := some "A Fic", authorTexts := ["alice"],
    updatedText := some "01 Jan 2024", fandomTexts := ["F1"],
    reqTags := ["Teen", "No Warnings", "M/M", "Complete"] }

/-- A fully well-formed entry visited in 2024. -/
def entryOk : Entry :=
  { userModuleText := some "Last visited: 01 Jan 2024 (Visited 2 times)",
    headerPart := some headerOk,
    shipTexts := ["a/b"], charTexts := ["a"], freeformTexts := ["fluff"],
    statsPart := some { wordsText := some "1,000", kudosText := some "5",
                        hitsText := some "100" } }

/-- Header with only three required-tag spans. -/
def headerShort : Header :=
  { titleText := some "B Fic", authorTexts := ["bob"],
    updatedText := some "02 Feb 2024", fandomTexts := ["F2"],
    reqTags := ["Teen", "No Warnings", "Gen"] }

/-- A 2024 entry with only three required-tag spans (and one author and
one fandom), so line 549's guard skips it after the author and fandom
counts have already been taken. -/
def entryShort : Entry :=
  { userModuleText := some "Last visited: 02 Feb 2024",
    headerPart := some headerShort,
    shipTexts := [], charTexts := [], freeformTexts := [],
    statsPart := none }

/-- A 2024 entry with all four required-tag spans but no `dl.stats`
block, so its ship types are counted at line 556 but line 593's guard
skips it before any row is appended. -/
def entryNoStats : Entry :=
  { userModuleText := some "Last visited: 03 Mar 2024",
    headerPart := some
      { titleText := some "C Fic", authorTexts := [],
        updatedText := none, fandomTexts := [],
        reqTags := ["Teen", "No Warnings", "Gen", "Complete"] },
    shipTexts := [], charTexts := [], freeformTexts := [],
    statsPart := none }

/-- An entry visited outside the target year 2024. -/
def entryOld : Entry :=
  { userModuleText := some "Last visited: 03 Mar 2019",
    headerPart := some
      { titleText := some "D Fic", authorTexts := ["dora"],
        updatedText := none, fandomTexts := ["F4"],
        reqTags := ["Teen", "No Warnings", "Gen", "Complete"] },
    shipTexts := [], charTexts := [], freeformTexts := [],
    statsPart := some { wordsText := some "10", kudosText := none, hitsText := none } }

/-- A sample accepted row. -/
def sampleRow : Row :=
  { title := "A Fic", authors := ["alice"], last_updated := "01 Jan 2024",
    fandoms := ["F1"], characters := ["a"], ship_types := ["M/M"],
    rating := "Teen", work_status := "Complete", ships := ["a/b"],
    additional_tags := ["fluff"], word_count := 1000, kudos := 5, hits := 100,
    user_last_visited := "01 Jan 2024 (Visited 2 times)", user_visitations := 2 }

/-! ### Frequency-table lemmas -/

/-- Bumping a key adds exactly one to the total stored count. -/
theorem bump_sumVals (m : Freq) (k : String) : sumVals (bump m k) = sumVals m + 1 := by
  induction m with
  | nil => simp [bump, sumVals]
  | cons p rest ih =>
    obtain ⟨k', v⟩ := p
    by_cases h : k' = k
    · simp [bump, h, sumVals]
      ring
    · simp [bump, h, sumVals] at ih ⊢
      omega

/-- Bumping a list of keys adds its length to the total stored count. -/
theorem bumpAll_sumVals (m : Freq) (ks : List String) :
    sumVals (bumpAll m ks) = sumVals m + ks.length := by
  induction ks generalizing m with
  | nil => simp [bumpAll]
  | cons k rest ih =>
    have h1 : bumpAll m (k :: rest) = bumpAll (bump m k) rest := rfl
    rw [h1, ih, bump_sumVals]
    simp
    omega

/-- Bumping never decreases any stored count. -/
theorem bump_lookupD_le (m : Freq) (k a : String) :
    lookupD m a ≤ lookupD (bump m k) a := by
  induction m with
  | nil => exact Nat.zero_le _
  | cons p rest ih =>
    obtain ⟨k', v⟩ := p
    by_cases h : k' = k
    · simp only [bump, if_pos h, lookupD]
      by_cases ha : k' = a <;> simp [ha]
    · simp only [bump, if_neg h, lookupD]
      by_cases ha : k' = a
      · simp [ha]
      · simp only [if_neg ha]
        exact ih

/-- Bumping a list of keys never decreases any stored count. -/
theorem bumpAll_lookupD_le (m : Freq) (ks : List String) (a : String) :
    lookupD m a ≤ lookupD (bumpAll m ks) a := by
  induction ks generalizing m with
  | nil => simp [bumpAll]
  | cons k rest ih =>
    have h1 : bumpAll m (k :: rest) = bumpAll (bump m k) rest := rfl
    rw [h1]
    exact le_trans (bump_lookupD_le m k a) (ih (bump m k))

/-- Key absence expressed on the entries of the table. -/
theorem freqHasKey_eq_false (m : Freq) (a : String) :
    freqHasKey m a = false ↔ ∀ p ∈ m, p.1 ≠ a := by
  simp [freqHasKey]

/-- A key different from the bumped one stays absent. -/
theorem bump_keys (m : Freq) (k a : String) (hne : k ≠ a)
    (h : ∀ p ∈ m, p.1 ≠ a) : ∀ p ∈ bump m k, p.1 ≠ a := by
  induction m with
  | nil =>
    intro p hp
    simp only [bump, List.mem_singleton] at hp
    subst hp
    exact hne
  | cons q rest ih =>
    obtain ⟨k', v⟩ := q
    intro p hp
    have hq : (k', v).1 ≠ a := h (k', v) (List.mem_cons_self _ _)
    have hrest : ∀ p ∈ rest, p.1 ≠ a := fun x hx => h x (List.mem_cons_of_mem _ hx)
    by_cases hk : k' = k
    · simp only [bump, if_pos hk, List.mem_cons] at hp
      rcases hp with h1 | h2
      · subst h1; exact hq
      · exact hrest p h2
    · simp only [bump, if_neg hk, List.mem_cons] at hp
      rcases hp with h1 | h2
      · subst h1; exact hq
      · exact ih hrest p h2

/-- A key not among the bumped ones stays absent. -/
theorem bumpAll_keys (m : Freq) (ks : List String) (a : String)
    (hne : ∀ k ∈ ks, k ≠ a) (h : ∀ p ∈ m, p.1 ≠ a) :
    ∀ p ∈ bumpAll m ks, p.1 ≠ a := by
  induction ks generalizing m with
  | nil => simpa [bumpAll] using h
  | cons k rest ih =>
    have h1 : bumpAll m (k :: rest) = bumpAll (bump m k) rest := rfl
    rw [h1]
    exact ih (bump m k) (fun x hx => hne x (List.mem_cons_of_mem _ hx))
      (bump_keys m k a (hne k (List.mem_cons_self _ _)) h)

/-! ### Monotonicity order on the aggregate state -/

/-- Pointwise order on frequency tables: no stored count decreases. -/
def FreqLE (m m' : Freq) : Prop := ∀ k, lookupD m k ≤ lookupD m' k

theorem FreqLE_refl (m : Freq) : FreqLE m m := fun _ => le_refl _

theorem FreqLE_trans {a b c : Freq} (h1 : FreqLE a b) (h2 : FreqLE b c) : FreqLE a c :=
  fun k => le_trans (h1 k) (h2 k)

theorem FreqLE_bump (m : Freq) (k : String) : FreqLE m (bump m k) :=
  fun a => bump_lookupD_le m k a

theorem FreqLE_bumpAll (m : Freq) (ks : List String) : FreqLE m (bumpAll m ks) :=
  fun a => bumpAll_lookupD_le m ks a

/-- Every counter of the first state is bounded by the corresponding
counter of the second: all eight frequency tables pointwise, the running
word-count total, and the lower-case-title count. -/
def StatsLE (s s' : Stats) : Prop :=
  FreqLE s.user_authors s'.user_authors ∧
  FreqLE s.user_fandoms s'.user_fandoms ∧
  FreqLE s.user_ship_type s'.user_ship_type ∧
  FreqLE s.user_rating s'.user_rating ∧
  FreqLE s.user_status s'.user_status ∧
  FreqLE s.user_ships s'.user_ships ∧
  FreqLE s.user_characters s'.user_characters ∧
  FreqLE s.user_tags s'.user_tags ∧
  s.user_word_count ≤ s'.user_word_count ∧
  s.title_lower_count ≤ s'.title_lower_count

theorem statsLE_refl (s : Stats) : StatsLE s s :=
  ⟨FreqLE_refl _, FreqLE_refl _, FreqLE_refl _, FreqLE_refl _, FreqLE_refl _,
   FreqLE_refl _, FreqLE_refl _, FreqLE_refl _, le_refl _, le_refl _⟩

theorem statsLE_trans {a b c : Stats} (h1 : StatsLE a b) (h2 : StatsLE b c) :
    StatsLE a c := by
  obtain ⟨a1, a2, a3, a4, a5, a6, a7, a8, a9, a10⟩ := h1
  obtain ⟨b1, b2, b3, b4, b5, b6, b7, b8, b9, b10⟩ := h2
  exact ⟨FreqLE_trans a1 b1, FreqLE_trans a2 b2, FreqLE_trans a3 b3,
         FreqLE_trans a4 b4, FreqLE_trans a5 b5, FreqLE_trans a6 b6,
         FreqLE_trans a7 b7, FreqLE_trans a8 b8, le_trans a9 b9, le_trans a10 b10⟩

/-! ### Branch characterization of `processEntry`

The stage functions below name the successive mutation blocks of the
entry loop; the equation lemmas prove that `processEntry` equals their
composition on each control path, so later proofs can reason per stage. -/

/-- Lines 505-541: the mutations performed after the title is found and
before the required-tag guard — lower-case-title count, author counts
(orphan filtered), fandom counts. -/
def statsA (title : String) (h : Header) (s : Stats) : Stats :=
  let s1 := if title = toLowerStr title then
      { s with title_lower_count := s.title_lower_count + 1 } else s
  let authors := h.authorTexts.filter (fun a => a ≠ "orphan_account")
  let s2 := { s1 with user_authors := bumpAll s1.user_authors authors }
  { s2 with user_fandoms := bumpAll s2.user_fandoms h.fandomTexts }

/-- Line 557: the comma-split ship-type tokens of required-tag slot 2. -/
def shipTypeToks (h : Header) : List String :=
  (splitOnL (", ".toList) (h.reqTags.getD 2 "").toList).map String.mk

/-- Lines 553-590: the mutations performed after the required-tag guard
and before the stats-block guard — rating, ship types, status, ships,
characters, freeform tags. -/
def statsB (title : String) (h : Header) (e : Entry) (s : Stats) : Stats :=
  let s3 := statsA title h s
  let s4 := { s3 with user_rating := bump s3.user_rating (h.reqTags.getD 0 "") }
  let s5 := { s4 with user_ship_type := bumpAll s4.user_ship_type (shipTypeToks h) }
  let s6 := { s5 with user_status := bump s5.user_status (h.reqTags.getD 3 "") }
  let s7 := { s6 with user_ships := bumpAll s6.user_ships e.shipTexts }
  let s8 := { s7 with user_characters := bumpAll s7.user_characters e.charTexts }
  { s8 with user_tags := bumpAll s8.user_tags e.freeformTexts }

/-- Lines 597-601: the parsed word count of a stats block. -/
def wordCountOf (sb : StatsBlock) : Nat :=
  (sb.wordsText.bind (fun t => parseU64 (stripCommas t))).getD 0

/-- Lines 597-602: the mutations of a fully accepted entry — `statsB`
plus the running word-count total. -/
def statsC (title : String) (h : Header) (e : Entry) (sb : StatsBlock) (s : Stats) : Stats :=
  let s9 := statsB title h e s
  { s9 with user_word_count := s9.user_word_count + wordCountOf sb }

/-- Lines 604-645: the row appended for a fully accepted entry with raw
visited-module text `t`. -/
def acceptRow (t title : String) (h : Header) (e : Entry) (sb : StatsBlock) : Row :=
  { title := title,
    authors := h.authorTexts.filter (fun a => a ≠ "orphan_account"),
    last_updated := h.updatedText.getD "",
    fandoms := h.fandomTexts,
    characters := e.charTexts,
    ship_types := shipTypeToks h,
    rating := h.reqTags.getD 0 "",
    work_status := h.reqTags.getD 3 "",
    ships := e.shipTexts,
    additional_tags := e.freeformTexts,
    word_count := wordCountOf sb,
    kudos := (sb.kudosText.bind (fun x => parseI32 (stripCommas x))).getD 0,
    hits := (sb.hitsText.bind (fun x => parseI32 (stripCommas x))).getD 0,
    user_last_visited := extractLastVisited t,
    user_visitations := parseVisitations t }

theorem processEntry_eq_noModule (year : String) (e : Entry) (s : Stats) (rows : List Row)
    (hm : e.userModuleText = none) :
    processEntry year e s rows = (s, rows, false) := by
  obtain ⟨um, hd, sh, ch, ff, sb⟩ := e
  cases hm
  rfl

theorem processEntry_eq_notYear (year : String) (e : Entry) (s : Stats) (rows : List Row)
    (t : String) (hm : e.userModuleText = some t)
    (hy : containsStr (extractLastVisited t) year = false) :
    processEntry year e s rows = (s, rows, false) := by
  obtain ⟨um, hd, sh, ch, ff, sb⟩ := e
  cases hm
  simp [processEntry, hy]

theorem processEntry_eq_noHeader (year : String) (e : Entry) (s : Stats) (rows : List Row)
    (t : String) (hm : e.userModuleText = some t)
    (hy : containsStr (extractLastVisited t) year = true)
    (hh : e.headerPart = none) :
    processEntry year e s rows = (s, rows, true) := by
  obtain ⟨um, hd, sh, ch, ff, sb⟩ := e
  cases hm
  cases hh
  simp [processEntry, hy]

theorem processEntry_eq_noTitle (year : String) (e : Entry) (s : Stats) (rows : List Row)
    (t : String) (h : Header) (hm : e.userModuleText = some t)
    (hy : containsStr (extractLastVisited t) year = true)
    (hh : e.headerPart = some h) (ht : h.titleText = none) :
    processEntry year e s rows = (s, rows, true) := by
  obtain ⟨um, hd, sh, ch, ff, sb⟩ := e
  cases hm
  cases hh
  obtain ⟨tt, au, ud, fd, rq⟩ := h
  cases ht
  simp [processEntry, hy]

theorem processEntry_eq_shortTags (year : String) (e : Entry) (s : Stats) (rows : List Row)
    (t title : String) (h : Header) (hm : e.userModuleText = some t)
    (hy : containsStr (extractLastVisited t) year = true)
    (hh : e.headerPart = some h) (ht : h.titleText = some title)
    (hlen : h.reqTags.length < 4) :
    processEntry year e s rows = (statsA title h s, rows, true) := by
  obtain ⟨um, hd, sh, ch, ff, sb⟩ := e
  cases hm
  cases hh
  obtain ⟨tt, au, ud, fd, rq⟩ := h
  cases ht
  simp only [Header.reqTags] at hlen
  simp [processEntry, statsA, hy, hlen]

theorem processEntry_eq_noStatsBlock (year : String) (e : Entry) (s : Stats) (rows : List Row)
    (t title : String) (h : Header) (hm : e.userModuleText = some t)
    (hy : containsStr (extractLastVisited t) year = true)
    (hh : e.headerPart = some h) (ht : h.titleText = some title)
    (hlen : ¬ h.reqTags.length < 4) (hsb : e.statsPart = none) :
    processEntry year e s rows = (statsB title h e s, rows, true) := by
  obtain ⟨um, hd, sh, ch, ff, sb⟩ := e
  cases hm
  cases hh
  cases hsb
  obtain ⟨tt, au, ud, fd, rq⟩ := h
  cases ht
  simp only [Header.reqTags] at hlen
  simp [processEntry, statsB, statsA, shipTypeToks, hy, hlen]

theorem processEntry_eq_accept (year : String) (e : Entry) (s : Stats) (rows : List Row)
    (t title : String) (h : Header) (sb : StatsBlock) (hm : e.userModuleText = some t)
    (hy : containsStr (extractLastVisited t) year = true)
    (hh : e.headerPart = some h) (ht : h.titleText = some title)
    (hlen : ¬ h.reqTags.length < 4) (hsb : e.statsPart = some sb) :
    processEntry year e s rows =
      (statsC title h e sb s, rows ++ [acceptRow t title h e sb], true) := by
  obtain ⟨um, hd, sh, ch, ff, sblk⟩ := e
  cases hm
  cases hh
  cases hsb
  obtain ⟨tt, au, ud, fd, rq⟩ := h
  cases ht
  simp only [Header.reqTags] at hlen
  simp [processEntry, statsC, statsB, statsA, acceptRow, shipTypeToks, wordCountOf, hy, hlen]

/-! ### Per-entry consequences -/

/-- The stage-A update leaves the ship-type table untouched. -/
theorem statsA_ship_type (title : String) (h : Header) (s : Stats) :
    (statsA title h s).user_ship_type = s.user_ship_type := by
  simp only [statsA]
  split <;> rfl

/-- The stage-A update changes the author table by bumping the filtered
author list. -/
theorem statsA_authors (title : String) (h : Header) (s : Stats) :
    (statsA title h s).user_authors =
      bumpAll s.user_authors (h.authorTexts.filter (fun a => a ≠ "orphan_account")) := by
  simp only [statsA]
  split <;> rfl

/-- Stage A only grows counters. -/
theorem statsA_le (title : String) (h : Header) (s : Stats) :
    StatsLE s (statsA title h s) := by
  simp only [statsA, StatsLE]
  split <;>
    exact ⟨FreqLE_bumpAll _ _, FreqLE_bumpAll _ _, FreqLE_refl _, FreqLE_refl _,
           FreqLE_refl _, FreqLE_refl _, FreqLE_refl _, FreqLE_refl _, le_refl _,
           by simp⟩

/-- Stage B only grows counters beyond stage A. -/
theorem statsB_le (title : String) (h : Header) (e : Entry) (s : Stats) :
    StatsLE (statsA title h s) (statsB title h e s) := by
  simp only [statsB, StatsLE]
  exact ⟨FreqLE_refl _, FreqLE_refl _, FreqLE_bumpAll _ _, FreqLE_bump _ _,
         FreqLE_bump _ _, FreqLE_bumpAll _ _, FreqLE_bumpAll _ _, FreqLE_bumpAll _ _,
         le_refl _, le_refl _⟩

/-- Stage C only grows counters beyond stage B. -/
theorem statsC_le (title : String) (h : Header) (e : Entry) (sb : StatsBlock) (s : Stats) :
    StatsLE (statsB title h e s) (statsC title h e sb s) := by
  simp only [statsC, StatsLE]
  exact ⟨FreqLE_refl _, FreqLE_refl _, FreqLE_refl _, FreqLE_refl _,
         FreqLE_refl _, FreqLE_refl _, FreqLE_refl _, FreqLE_refl _,
         Nat.le_add_right _ _, le_refl _⟩

/-- The entry loop body reports `found_in_year` exactly when the entry
has a visited module whose extracted date contains the target year. -/
theorem processEntry_found (year : String) (e : Entry) (s : Stats) (rows : List Row) :
    (processEntry year e s rows).2.2 = entryMatched year e := by
  rcases hm : e.userModuleText with _ | t
  · rw [processEntry_eq_noModule year e s rows hm]
    simp [entryMatched, hm]
  · cases hy : containsStr (extractLastVisited t) year with
    | false =>
      rw [processEntry_eq_notYear year e s rows t hm hy]
      simp [entryMatched, hm, hy]
    | true =>
      rcases hh : e.headerPart with _ | h
      · rw [processEntry_eq_noHeader year e s rows t hm hy hh]
        simp [entryMatched, hm, hy]
      · rcases ht : h.titleText with _ | title
        · rw [processEntry_eq_noTitle year e s rows t h hm hy hh ht]
          simp [entryMatched, hm, hy]
        · by_cases hlen : h.reqTags.length < 4
          · rw [processEntry_eq_shortTags year e s rows t title h hm hy hh ht hlen]
            simp [entryMatched, hm, hy]
          · rcases hsb : e.statsPart with _ | sb
            · rw [processEntry_eq_noStatsBlock year e s rows t title h hm hy hh ht hlen hsb]
              simp [entryMatched, hm, hy]
            · rw [processEntry_eq_accept year e s rows t title h sb hm hy hh ht hlen hsb]
              simp [entryMatched, hm, hy]

/-- The entry loop body never decreases any counter. -/
theorem processEntry_statsLE (year : String) (e : Entry) (s : Stats) (rows : List Row) :
    StatsLE s (processEntry year e s rows).1 := by
  rcases hm : e.userModuleText with _ | t
  · rw [processEntry_eq_noModule year e s rows hm]
    exact statsLE_refl s
  · cases hy : containsStr (extractLastVisited t) year with
    | false =>
      rw [processEntry_eq_notYear year e s rows t hm hy]
      exact statsLE_refl s
    | true =>
      rcases hh : e.headerPart with _ | h
      · rw [processEntry_eq_noHeader year e s rows t hm hy hh]
        exact statsLE_refl s
      · rcases ht : h.titleText with _ | title
        · rw [processEntry_eq_noTitle year e s rows t h hm hy hh ht]
          exact statsLE_refl s
        · by_cases hlen : h.reqTags.length < 4
          · rw [processEntry_eq_shortTags year e s rows t title h hm hy hh ht hlen]
            exact statsA_le title h s
          · rcases hsb : e.statsPart with _ | sb
            · rw [processEntry_eq_noStatsBlock year e s rows t title h hm hy hh ht hlen hsb]
              exact statsLE_trans (statsA_le title h s) (statsB_le title h e s)
            · rw [processEntry_eq_accept year e s rows t title h sb hm hy hh ht hlen hsb]
              exact statsLE_trans (statsLE_trans (statsA_le title h s) (statsB_le title h e s))
                (statsC_le title h e sb s)

/-- The entry loop body adds exactly `shipTokens` to the total count
stored in the ship-type table. -/
theorem processEntry_shipSum (year : String) (e : Entry) (s : Stats) (rows : List Row) :
    sumVals (processEntry year e s rows).1.user_ship_type
      = sumVals s.user_ship_type + shipTokens year e := by
  rcases hm : e.userModuleText with _ | t
  · rw [processEntry_eq_noModule year e s rows hm]
    simp [shipTokens, hm]
  · cases hy : containsStr (extractLastVisited t) year with
    | false =>
      rw [processEntry_eq_notYear year e s rows t hm hy]
      simp [shipTokens, hm, hy]
    | true =>
      rcases hh : e.headerPart with _ | h
      · rw [processEntry_eq_noHeader year e s rows t hm hy hh]
        simp [shipTokens, hm, hy, hh]
      · rcases ht : h.titleText with _ | title
        · rw [processEntry_eq_noTitle year e s rows t h hm hy hh ht]
          simp [shipTokens, hm, hy, hh, ht]
        · by_cases hlen : h.reqTags.length < 4
          · rw [processEntry_eq_shortTags year e s rows t title h hm hy hh ht hlen]
            simp [shipTokens, hm, hy, hh, ht, hlen, statsA_ship_type]
          · rcases hsb : e.statsPart with _ | sb
            · rw [processEntry_eq_noStatsBlock year e s rows t title h hm hy hh ht hlen hsb]
              have hB : (statsB title h e s).user_ship_type
                  = bumpAll (statsA title h s).user_ship_type (shipTypeToks h) := rfl
              rw [hB, bumpAll_sumVals, statsA_ship_type]
              simp [shipTokens, hm, hy, hh, ht, hlen, shipTypeToks]
            · rw [processEntry_eq_accept year e s rows t title h sb hm hy hh ht hlen hsb]
              have hC : (statsC title h e sb s).user_ship_type
                  = bumpAll (statsA title h s).user_ship_type (shipTypeToks h) := rfl
              rw [hC, bumpAll_sumVals, statsA_ship_type]
              simp [shipTokens, hm, hy, hh, ht, hlen, shipTypeToks]

/-- The entry loop body never inserts the orphan sentinel into the
author table. -/
theorem processEntry_orphanStats (year : String) (e : Entry) (s : Stats) (rows : List Row)
    (h : ∀ p ∈ s.user_authors, p.1 ≠ "orphan_account") :
    ∀ p ∈ (processEntry year e s rows).1.user_authors, p.1 ≠ "orphan_account" := by
  have hfilter : ∀ h' : Header,
      ∀ k ∈ h'.authorTexts.filter (fun a => a ≠ "orphan_account"), k ≠ "orphan_account" :=
    fun h' k hk => by simpa using (List.mem_filter.mp hk).2
  rcases hm : e.userModuleText with _ | t
  · rw [processEntry_eq_noModule year e s rows hm]
    exact h
  · cases hy : containsStr (extractLastVisited t) year with
    | false =>
      rw [processEntry_eq_notYear year e s rows t hm hy]
      exact h
    | true =>
      rcases hh : e.headerPart with _ | hdr
      · rw [processEntry_eq_noHeader year e s rows t hm hy hh]
        exact h
      · rcases ht : hdr.titleText with _ | title
        · rw [processEntry_eq_noTitle year e s rows t hdr hm hy hh ht]
          exact h
        · have hA : ∀ p ∈ (statsA title hdr s).user_authors, p.1 ≠ "orphan_account" := by
            rw [statsA_authors]
            exact bumpAll_keys _ _ _ (hfilter hdr) h
          by_cases hlen : hdr.reqTags.length < 4
          · rw [processEntry_eq_shortTags year e s rows t title hdr hm hy hh ht hlen]
            exact hA
          · rcases hsb : e.statsPart with _ | sb
            · rw [processEntry_eq_noStatsBlock year e s rows t title hdr hm hy hh ht hlen hsb]
              exact hA
            · rw [processEntry_eq_accept year e s rows t title hdr sb hm hy hh ht hlen hsb]
              exact hA

/-- The entry loop body never appends a row whose author list contains
the orphan sentinel. -/
theorem processEntry_orphanRows (year : String) (e : Entry) (s : Stats) (rows : List Row)
    (h : ∀ r ∈ rows, "orphan_account" ∉ r.authors) :
    ∀ r ∈ (processEntry year e s rows).2.1, "orphan_account" ∉ r.authors := by
  rcases hm : e.userModuleText with _ | t
  · rw [processEntry_eq_noModule year e s rows hm]
    exact h
  · cases hy : containsStr (extractLastVisited t) year with
    | false =>
      rw [processEntry_eq_notYear year e s rows t hm hy]
      exact h
    | true =>
      rcases hh : e.headerPart with _ | hdr
      · rw [processEntry_eq_noHeader year e s rows t hm hy hh]
        exact h
      · rcases ht : hdr.titleText with _ | title
        · rw [processEntry_eq_noTitle year e s rows t hdr hm hy hh ht]
          exact h
        · by_cases hlen : hdr.reqTags.length < 4
          · rw [processEntry_eq_shortTags year e s rows t title hdr hm hy hh ht hlen]
            exact h
          · rcases hsb : e.statsPart with _ | sb
            · rw [processEntry_eq_noStatsBlock year e s rows t title hdr hm hy hh ht hlen hsb]
              exact h
            · rw [processEntry_eq_accept year e s rows t title hdr sb hm hy hh ht hlen hsb]
              intro r hr
              rcases List.mem_append.mp hr with hold | hnew
              · exact h r hold
              · have : r = acceptRow t title hdr e sb := List.mem_singleton.mp hnew
                subst this
                simp [acceptRow, List.mem_filter]

/-! ### Page-level and run-level consequences -/

/-- A page parse reports `found_in_year` exactly when some entry of the
page matches the target year, regardless of the incoming state. -/
theorem processPage_found (year : String) (page : List Entry) (s : Stats) (rows : List Row) :
    (processPage year page s rows).2.2 = pageMatched year page := by
  induction page generalizing s rows with
  | nil => rfl
  | cons e rest ih =>
    have h1 : (processPage year (e :: rest) s rows).2.2
        = ((processEntry year e s rows).2.2
            || (processPage year rest (processEntry year e s rows).1
                  (processEntry year e s rows).2.1).2.2) := rfl
    rw [h1, processEntry_found, ih]
    simp [pageMatched]

/-- A page parse never decreases any counter. -/
theorem processPage_statsLE (year : String) (page : List Entry) (s : Stats) (rows : List Row) :
    StatsLE s (processPage year page s rows).1 := by
  induction page generalizing s rows with
  | nil => exact statsLE_refl s
  | cons e rest ih =>
    exact statsLE_trans (processEntry_statsLE year e s rows)
      (ih (processEntry year e s rows).1 (processEntry year e s rows).2.1)

/-- A page parse adds exactly the page's ship-type tokens to the total
count stored in the ship-type table. -/
theorem processPage_shipSum (year : String) (page : List Entry) (s : Stats) (rows : List Row) :
    sumVals (processPage year page s rows).1.user_ship_type
      = sumVals s.user_ship_type + (page.map (shipTokens year)).sum := by
  induction page generalizing s rows with
  | nil => simp [processPage]
  | cons e rest ih =>
    have h1 : (processPage year (e :: rest) s rows).1
        = (processPage year rest (processEntry year e s rows).1
            (processEntry year e s rows).2.1).1 := rfl
    rw [h1, ih, processEntry_shipSum]
    simp
    omega

/-- A page parse preserves orphan absence in the author table. -/
theorem processPage_orphanStats (year : String) (page : List Entry) (s : Stats)
    (rows : List Row) (h : ∀ p ∈ s.user_authors, p.1 ≠ "orphan_account") :
    ∀ p ∈ (processPage year page s rows).1.user_authors, p.1 ≠ "orphan_account" := by
  induction page generalizing s rows with
  | nil => exact h
  | cons e rest ih =>
    exact ih (processEntry year e s rows).1 (processEntry year e s rows).2.1
      (processEntry_orphanStats year e s rows h)

/-- A page parse preserves orphan absence in the appended rows. -/
theorem processPage_orphanRows (year : String) (page : List Entry) (s : Stats)
    (rows : List Row) (h : ∀ r ∈ rows, "orphan_account" ∉ r.authors) :
    ∀ r ∈ (processPage year page s rows).2.1, "orphan_account" ∉ r.authors := by
  induction page generalizing s rows with
  | nil => exact h
  | cons e rest ih =>
    exact ih (processEntry year e s rows).1 (processEntry year e s rows).2.1
      (processEntry_orphanRows year e s rows h)

/-- The pagination loop never decreases any counter. -/
theorem runPages_statsLE (year : String) (pages : List (List Entry)) (s : Stats)
    (rows : List Row) : StatsLE s (runPages year pages s rows).1 := by
  induction pages generalizing s rows with
  | nil => exact statsLE_refl s
  | cons p rest ih =>
    simp only [runPages]
    split
    · exact statsLE_trans (processPage_statsLE year p s rows)
        (ih (processPage year p s rows).1 (processPage year p s rows).2.1)
    · exact processPage_statsLE year p s rows

/-- The pagination loop adds exactly the ship-type tokens of the fetched
entries to the total count stored in the ship-type table. -/
theorem runPages_shipSum (year : String) (pages : List (List Entry)) (s : Stats)
    (rows : List Row) :
    sumVals (runPages year pages s rows).1.user_ship_type
      = sumVals s.user_ship_type + ((fetchedEntries year pages).map (shipTokens year)).sum := by
  induction pages generalizing s rows with
  | nil => simp [runPages, fetchedEntries]
  | cons p rest ih =>
    simp only [runPages]
    cases hfound : (processPage year p s rows).2.2 with
    | false =>
      have hpm : pageMatched year p = false := by
        rw [← processPage_found year p s rows, hfound]
      simp only [hfound, if_false, Bool.false_eq_true]
      rw [processPage_shipSum]
      simp [fetchedEntries, hpm]
    | true =>
      have hpm : pageMatched year p = true := by
        rw [← processPage_found year p s rows, hfound]
      simp only [hfound, if_true]
      rw [ih, processPage_shipSum]
      simp [fetchedEntries, hpm]
      omega

/-- The pagination loop preserves orphan absence in the author table. -/
theorem runPages_orphanStats (year : String) (pages : List (List Entry)) (s : Stats)
    (rows : List Row) (h : ∀ p ∈ s.user_authors, p.1 ≠ "orphan_account") :
    ∀ q ∈ (runPages year pages s rows).1.user_authors, q.1 ≠ "orphan_account" := by
  induction pages generalizing s rows with
  | nil => exact h
  | cons p rest ih =>
    simp only [runPages]
    split
    · exact ih (processPage year p s rows).1 (processPage year p s rows).2.1
        (processPage_orphanStats year p s rows h)
    · exact processPage_orphanStats year p s rows h

/-- The pagination loop preserves orphan absence in the accumulated rows. -/
theorem runPages_orphanRows (year : String) (pages : List (List Entry)) (s : Stats)
    (rows : List Row) (h : ∀ r ∈ rows, "orphan_account" ∉ r.authors) :
    ∀ r ∈ (runPages year pages s rows).2.1, "orphan_account" ∉ r.authors := by
  induction pages generalizing s rows with
  | nil => exact h
  | cons p rest ih =>
    simp only [runPages]
    split
    · exact ih (processPage year p s rows).1 (processPage year p s rows).2.1
        (processPage_orphanRows year p s rows h)
    · exact processPage_orphanRows year p s rows h

/-! ### Claim theorems -/

/-- C1, counterexample: a transport-level failure of `send()` on a
listing-page fetch is propagated by the `?` operator at src/main.rs line
72 and aborts the whole run; it is not retried. This refutes the claim
that any transport-level failure is retried indefinitely and that no
page fetch failure aborts the run. -/
theorem fetch_transport_error_aborts :
    fetchLoop [Attempt.sendErr] = FetchResult.aborted := rfl

/-- C1 (amended): a non-success HTTP status on a listing-page fetch is
retried indefinitely with no retry limit (any number of consecutive
non-success statuses still leaves the loop retrying, and a later success
is returned), while a transport-level failure of the request send or of
the body read propagates as an error and aborts the run. The retry loop
binds no page-number mutation (src/main.rs lines 71-78), so retries hit
the same page number. -/
theorem fetch_retry_policy :
    (∀ (n : Nat) (b : String),
        fetchLoop (List.replicate n Attempt.httpErr ++ [Attempt.success b])
          = FetchResult.fetched b)
    ∧ (∀ n : Nat, fetchLoop (List.replicate n Attempt.httpErr) = FetchResult.exhausted)
    ∧ (∀ l : List Attempt, fetchLoop (Attempt.sendErr :: l) = FetchResult.aborted)
    ∧ (∀ l : List Attempt, fetchLoop (Attempt.textErr :: l) = FetchResult.aborted) := by
  refine ⟨?_, ?_, fun l => rfl, fun l => rfl⟩
  · intro n b
    induction n with
    | zero => rfl
    | succ k ih => simpa [List.replicate_succ, fetchLoop] using ih
  · intro n
    induction n with
    | zero => rfl
    | succ k ih => simpa [List.replicate_succ, fetchLoop] using ih

/-- C2, counterexample: a year-matching entry with fewer than four
required-tag spans (`entryShort`) appends no row, yet its author counter
has been incremented — the author (and fandom) tables are not left
unchanged, contrary to the claim. -/
theorem reqtags_skip_mutates_authors :
    (processEntry "2024" entryShort emptyStats []).2.1 = []
    ∧ lookupD (processEntry "2024" entryShort emptyStats []).1.user_authors "bob" = 1
    ∧ lookupD emptyStats.user_authors "bob" = 0 := ⟨rfl, rfl, rfl⟩

/-- C2 (amended): an entry whose visited date matches the target year
but which has fewer than four required-tag spans produces no row and
leaves the rating, ship-type, status, ship, character, tag tables and
the running word-count total unchanged; however the lower-case-title,
author and fandom counters have already been updated before the
required-tag guard (src/main.rs lines 505-549). -/
theorem reqtags_skip_partial_frame (year : String) (e : Entry) (s : Stats) (rows : List Row)
    (t title : String) (h : Header)
    (hm : e.userModuleText = some t)
    (hy : containsStr (extractLastVisited t) year = true)
    (hh : e.headerPart = some h) (ht : h.titleText = some title)
    (hlen : h.reqTags.length < 4) :
    (processEntry year e s rows).2.1 = rows
    ∧ (processEntry year e s rows).1.user_rating = s.user_rating
    ∧ (processEntry year e s rows).1.user_ship_type = s.user_ship_type
    ∧ (processEntry year e s rows).1.user_status = s.user_status
    ∧ (processEntry year e s rows).1.user_ships = s.user_ships
    ∧ (processEntry year e s rows).1.user_characters = s.user_characters
    ∧ (processEntry year e s rows).1.user_tags = s.user_tags
    ∧ (processEntry year e s rows).1.user_word_count = s.user_word_count := by
  rw [processEntry_eq_shortTags year e s rows t title h hm hy hh ht hlen]
  refine ⟨rfl, ?_, ?_, ?_, ?_, ?_, ?_, ?_⟩ <;> (simp only [statsA]; split <;> rfl)

/-- Witness for the amended C2 at the concrete entry `entryShort`. -/
theorem reqtags_skip_partial_frame_witness :
    (processEntry "2024" entryShort emptyStats []).2.1 = []
    ∧ (processEntry "2024" entryShort emptyStats []).1.user_rating = emptyStats.user_rating
    ∧ (processEntry "2024" entryShort emptyStats []).1.user_ship_type
        = emptyStats.user_ship_type
    ∧ (processEntry "2024" entryShort emptyStats []).1.user_status = emptyStats.user_status
    ∧ (processEntry "2024" entryShort emptyStats []).1.user_ships = emptyStats.user_ships
    ∧ (processEntry "2024" entryShort emptyStats []).1.user_characters
        = emptyStats.user_characters
    ∧ (processEntry "2024" entryShort emptyStats []).1.user_tags = emptyStats.user_tags
    ∧ (processEntry "2024" entryShort emptyStats []).1.user_word_count
        = emptyStats.user_word_count :=
  reqtags_skip_partial_frame "2024" entryShort emptyStats []
    "Last visited: 02 Feb 2024" "B Fic" headerShort rfl (by decide) rfl rfl (by decide)

/-- C3, counterexample: a year-matching entry with four required-tag
spans but no stats block (`entryNoStats`) contributes one token to the
ship-type table yet produces no row, so the table total (1) differs from
the token total over row-producing records (0). -/
theorem rowless_entry_ships_counted :
    sumVals (processEntry "2024" entryNoStats emptyStats []).1.user_ship_type = 1
    ∧ ((processEntry "2024" entryNoStats emptyStats []).2.1.map
        (fun r => r.ship_types.length)).sum = 0 := ⟨rfl, rfl⟩

/-- C3 (amended): at the end of any run the sum of all values in the
ship-type frequency table equals the total number of ship-type tokens of
every processed entry that reaches the ship-type counting step (visited
module present, year matched, header and title present, at least four
required-tag spans) — including entries later skipped for a missing
stats block, which produce no row. -/
theorem shiptype_token_conservation (year : String) (pages : List (List Entry)) :
    sumVals (runPages year pages emptyStats []).1.user_ship_type
      = ((fetchedEntries year pages).map (shipTokens year)).sum := by
  have h := runPages_shipSum year pages emptyStats []
  simpa [emptyStats, sumVals] using h

/-- C4: an entry with a visited module whose extracted visited date does
not contain the target year leaves the statistics, the row list and the
`found_in_year` flag untouched (`continue` at src/main.rs line 500
before any mutation). -/
theorem not_in_year_frame (year : String) (e : Entry) (s : Stats) (rows : List Row)
    (t : String) (hm : e.userModuleText = some t)
    (hy : containsStr (extractLastVisited t) year = false) :
    processEntry year e s rows = (s, rows, false) :=
  processEntry_eq_notYear year e s rows t hm hy

/-- Witness for C4 at the concrete entry `entryOld` (visited 2019,
target year 2024). -/
theorem not_in_year_frame_witness :
    processEntry "2024" entryOld emptyStats [] = (emptyStats, [], false) :=
  not_in_year_frame "2024" entryOld emptyStats [] "Last visited: 03 Mar 2019" rfl (by decide)

/-- C5, counterexample: the columns actually written by the `df!`
invocation differ from the claimed list — slot 7 is named `work_stats`
in the source (src/main.rs line 637), not `work_status`. -/
theorem row_columns_mismatch :
    (rowNamed sampleRow).map Prod.fst ≠ specClaimedColumns := by decide

/-- C5 (amended): every persisted row has exactly these columns in this
order: title, authors, last_updated, fandoms, characters, ship_types,
rating, `work_stats` (not `work_status`), ships, additional_tags,
word_count, kudos, hits, user_last_visited, user_visitations. -/
theorem row_columns_exact (r : Row) :
    (rowNamed r).map Prod.fst =
      ["title", "authors", "last_updated", "fandoms", "characters", "ship_types",
       "rating", "work_stats", "ships", "additional_tags", "word_count", "kudos",
       "hits", "user_last_visited", "user_visitations"] := rfl

/-- C6: pagination fetches pages in increasing order and stops exactly
after the first page with no year-matching entry: if every page of `ps`
has a matching entry and page `q` has none, the run over `ps ++ q :: qs`
fetches exactly `ps.length + 1` pages (for the 3-page instance with two
matching pages, exactly 3). -/
theorem pagination_stops_after_first_non_matching (year : String)
    (ps qs : List (List Entry)) (q : List Entry) (s : Stats) (rows : List Row)
    (hall : ∀ p ∈ ps, pageMatched year p = true)
    (hq : pageMatched year q = false) :
    (runPages year (ps ++ q :: qs) s rows).2.2 = ps.length + 1 := by
  induction ps generalizing s rows with
  | nil =>
    simp only [List.nil_append, runPages, List.length_nil]
    rw [processPage_found, hq]
    simp
  | cons p rest ih =>
    have hp : pageMatched year p = true := hall p (List.mem_cons_self _ _)
    simp only [List.cons_append, runPages]
    rw [processPage_found, hp]
    simp only [if_true, List.length_cons, List.append_eq]
    rw [ih (processPage year p s rows).1 (processPage year p s rows).2.1
      (fun x hx => hall x (List.mem_cons_of_mem _ hx))]

/-- Witness for C6: the synthetic 3-page sequence (two matching pages,
then a page with no matching entry) fetches exactly 3 pages. -/
theorem pagination_stops_witness :
    (runPages "2024" [[entryOk], [entryOk], ([] : List Entry)] emptyStats []).2.2 = 3 := by
  have h := pagination_stops_after_first_non_matching "2024" [[entryOk], [entryOk]] []
    ([] : List Entry) emptyStats [] (by decide) (by decide)
  simpa using h

/-- C7, counterexample: the visited text `"Visited 0 times"` parses to
0, which is not positive — the claim that the result is always a
positive integer fails. -/
theorem visitations_zero_not_positive :
    parseVisitations "Visited 0 times" = 0
    ∧ ¬ (0 < parseVisitations "Visited 0 times") := by
  exact ⟨rfl, by decide⟩

/-- C7 (amended): `"Visited once"` parses to 1, `"Visited 4 times"` to
4, and a visited text with no recognizable count defaults to 1; in
general the result is positive except when the leading count token
parses to a non-positive integer, in which case the result equals that
token (e.g. `"Visited 0 times"` yields 0). -/
theorem visitation_parsing_amended :
    parseVisitations "Visited once" = 1
    ∧ parseVisitations "Visited 4 times" = 4
    ∧ parseVisitations "Visited" = 1
    ∧ ∀ t : String, 0 < parseVisitations t
        ∨ ∃ n : Int, parseI32 (visitCountTok t) = some n ∧ n ≤ 0
            ∧ parseVisitations t = n := by
  refine ⟨by decide, by decide, by decide, ?_⟩
  intro t
  by_cases htok : visitCountTok t = "once"
  · left
    simp [parseVisitations, htok]
  · rcases hp : parseI32 (visitCountTok t) with _ | n
    · left
      simp [parseVisitations, htok, hp]
    · rcases le_or_lt n 0 with hn | hn
      · right
        exact ⟨n, rfl, hn, by simp [parseVisitations, htok, hp]⟩
      · left
        simpa [parseVisitations, htok, hp] using hn

/-- C8: over any run from the empty state, the `orphan_account` sentinel
never appears as a key of the author frequency table and never appears
in the author list of any produced row (the filter at src/main.rs line
522). -/
theorem orphan_account_excluded (year : String) (pages : List (List Entry)) :
    freqHasKey (runPages year pages emptyStats []).1.user_authors "orphan_account" = false
    ∧ ((runPages year pages emptyStats []).2.1.all
        (fun r => !(r.authors.contains "orphan_account"))) = true := by
  constructor
  · rw [freqHasKey_eq_false]
    exact runPages_orphanStats year pages emptyStats [] (by simp [emptyStats])
  · rw [List.all_eq_true]
    intro r hr
    have h := runPages_orphanRows year pages emptyStats [] (by simp) r hr
    simpa using h

/-- C9: every counter of the aggregate state — each stored frequency
count, the running word-count total and the lower-case-title count — is
monotonically non-decreasing across the processing of any sequence of
pages and entries. -/
theorem counters_monotone (year : String) (pages : List (List Entry)) (s : Stats)
    (rows : List Row) : StatsLE s (runPages year pages s rows).1 :=
  runPages_statsLE year pages s rows

/-- C10: a page parse reports "continue pagination" exactly when at
least one of its entries has a visited date containing the target year,
regardless of later skips; concretely, a page whose only year-matching
entry is skipped for malformed markup (fewer than four required tags)
still advances the controller to the next page and contributes no row. -/
theorem page_advance_independent_of_skips (year : String) (page : List Entry) (s : Stats)
    (rows : List Row) :
    (processPage year page s rows).2.2 = pageMatched year page
    ∧ (runPages "2024" [[entryShort], ([] : List Entry)] emptyStats []).2.2 = 2
    ∧ (runPages "2024" [[entryShort], ([] : List Entry)] emptyStats []).2.1 = [] := by
  refine ⟨processPage_found year page s rows, ?_, ?_⟩ <;> rfl
